import Mathlib

/-!
# Verification of the `arcade.gl` OpenGL wrapper (context / program state)

A shallow embedding of `src/arcade/gl/context.py` and
`src/arcade/gl/program.py`. The Python objects mutate in place and issue
driver calls; here every operation is a pure function from the relevant
state to the updated state paired with the list of driver calls it issues,
in issue order. Driver queries (compile status, link status, info logs,
created shader ids) are supplied by a `GLDriver` oracle. Python `float`
values only flow through unchanged, so they are modelled as `Rat`;
Python's flag `set` becomes a `Finset Nat`; a Python exception becomes an
`Except` error value.
-/

namespace Arcade

/-- An OpenGL driver call as issued by the wrapper, with its arguments.
`glUniformSet` stands for the concrete `glUniform*`/`glProgramUniform*`
call a `Uniform`'s setter issues at its location. -/
inductive GLCall where
  | glEnable (flag : Nat)
  | glDisable (flag : Nat)
  | glBlendFunc (sfactor dfactor : Nat)
  | glPointSize (size : Rat)
  | glUseProgram (glo : Nat)
  | glUniformSet (location : Nat) (value : Int)
  deriving DecidableEq, Repr

/-- `gl.GL_FALSE`. -/
def GL_FALSE : Nat := 0

/-- The mutable state of a `Context` object that the claims touch:
`active_program` (tracked by program id, Python compares programs by
identity), the recorded blend function `_blend_func`, the stored
`_point_size` and the active-flag set `_flags`. -/
structure Ctx where
  active_program : Option Nat
  _blend_func : Nat × Nat
  _point_size : Rat
  _flags : Finset Nat
  deriving DecidableEq

namespace Context

/-- `gl.GL_BLEND`, class attribute `Context.BLEND`. -/
def BLEND : Nat := 0x0BE2

/-- `gl.GL_DEPTH_TEST`, class attribute `Context.DEPTH_TEST`. -/
def DEPTH_TEST : Nat := 0x0B71

/-- `gl.GL_CULL_FACE`, class attribute `Context.CULL_FACE`. -/
def CULL_FACE : Nat := 0x0B44

/-- `gl.GL_PROGRAM_POINT_SIZE`, class attribute `Context.PROGRAM_POINT_SIZE`. -/
def PROGRAM_POINT_SIZE : Nat := 0x8642

/-- `Context.BLEND_DEFAULT = 0x0302, 0x0303`. -/
def BLEND_DEFAULT : Nat × Nat := (0x0302, 0x0303)

/-- `Context.enable(*args)`: `self._flags.update(args)`, then
`gl.glEnable(flag)` for each flag in `args`, in order. -/
def enable (s : Ctx) (args : List Nat) : Ctx × List GLCall :=
  ({ s with _flags := s._flags ∪ args.toFinset }, args.map GLCall.glEnable)

/-- `Context.enable_only(*args)`: `self._flags = set(args)`, then for each
of the four flags the method handles (`BLEND`, `DEPTH_TEST`, `CULL_FACE`,
`PROGRAM_POINT_SIZE`) a `glEnable` when the flag is in the new set and a
`glDisable` when it is not. No driver call is issued for any other flag. -/
def enable_only (s : Ctx) (args : List Nat) : Ctx × List GLCall :=
  let flags := args.toFinset
  let call (flag : Nat) : GLCall :=
    if flag ∈ flags then GLCall.glEnable flag else GLCall.glDisable flag
  ({ s with _flags := flags },
    [call BLEND, call DEPTH_TEST, call CULL_FACE, call PROGRAM_POINT_SIZE])

/-- `Context.disable(*args)`: `self._flags -= set(args)`, then
`gl.glDisable(flag)` for each flag in `args`, in order. -/
def disable (s : Ctx) (args : List Nat) : Ctx × List GLCall :=
  ({ s with _flags := s._flags \ args.toFinset }, args.map GLCall.glDisable)

/-- `Context.is_enabled(flag)`: `flag in self._flags`. -/
def is_enabled (s : Ctx) (flag : Nat) : Bool :=
  flag ∈ s._flags

/-- The `blend_func` property getter: returns `self._blend_func`. -/
def blend_func (s : Ctx) : Nat × Nat :=
  s._blend_func

/-- The `blend_func` property setter: stores the tuple, then issues
`gl.glBlendFunc(value[0], value[1])`. -/
def set_blend_func (s : Ctx) (value : Nat × Nat) : Ctx × List GLCall :=
  ({ s with _blend_func := value }, [GLCall.glBlendFunc value.1 value.2])

/-- The `point_size` property getter: returns `self._point_size`. -/
def point_size (s : Ctx) : Rat :=
  s._point_size

/-- The `point_size` property setter, exactly as written in the source:
it first issues `gl.glPointSize(self._point_size)` — the PREVIOUS stored
value — and only then stores the new value. -/
def set_point_size (s : Ctx) (value : Rat) : Ctx × List GLCall :=
  ({ s with _point_size := value }, [GLCall.glPointSize s._point_size])

/-- `Context.activate(ctx)`: sets the class attribute `Context.active`
to the given context. The first component is the previous value of
`Context.active`, which the method discards. -/
def activate (_active : Option Ctx) (ctx : Ctx) : Option Ctx :=
  some ctx

/-- `Context.__init__(window)` restricted to the state the claims touch.
The constructor queries `Limits`, calls `Context.activate(self)`, then sets
`active_program = None`, `_blend_func = BLEND_DEFAULT`, `_point_size = 1.0`
and `_flags = set()`; `Context.active` ends up referencing the (fully
initialised) new context. Returns the new context and the value of
`Context.active` after the call, given its previous value. -/
def init (active : Option Ctx) : Ctx × Option Ctx :=
  let ctx : Ctx :=
    { active_program := none
      _blend_func := BLEND_DEFAULT
      _point_size := 1
      _flags := ∅ }
  (ctx, activate active ctx)

end Context

/-- The six per-resource keys of `ContextStats`. -/
inductive StatKey where
  | texture
  | framebuffer
  | buffer
  | program
  | vertex_array
  | geometry
  deriving DecidableEq, Repr

/-- `ContextStats`: a `warn_threshold` and one `(created, freed)` pair per
resource kind. -/
structure ContextStats where
  warn_threshold : Nat
  texture : Nat × Nat
  framebuffer : Nat × Nat
  buffer : Nat × Nat
  program : Nat × Nat
  vertex_array : Nat × Nat
  geometry : Nat × Nat
  deriving DecidableEq, Repr

namespace ContextStats

/-- `getattr(self, key)` for the six resource counters. -/
def get (s : ContextStats) (k : StatKey) : Nat × Nat :=
  match k with
  | .texture => s.texture
  | .framebuffer => s.framebuffer
  | .buffer => s.buffer
  | .program => s.program
  | .vertex_array => s.vertex_array
  | .geometry => s.geometry

/-- `setattr(self, key, value)` for the six resource counters. -/
def set (s : ContextStats) (k : StatKey) (v : Nat × Nat) : ContextStats :=
  match k with
  | .texture => { s with texture := v }
  | .framebuffer => { s with framebuffer := v }
  | .buffer => { s with buffer := v }
  | .program => { s with program := v }
  | .vertex_array => { s with vertex_array := v }
  | .geometry => { s with geometry := v }

/-- `ContextStats.incr(key)`: `created, freed = getattr(self, key)` then
`setattr(self, key, (created + 1, freed))`. The threshold `LOG.debug` has
no effect on the state. -/
def incr (s : ContextStats) (k : StatKey) : ContextStats :=
  let p := s.get k
  s.set k (p.1 + 1, p.2)

/-- `ContextStats.decr(key)`: `created, freed = getattr(self, key)` then
`setattr(self, key, (created, freed + 1))`. -/
def decr (s : ContextStats) (k : StatKey) : ContextStats :=
  let p := s.get k
  s.set k (p.1, p.2 + 1)

end ContextStats

/-- The wrapper's `ShaderException`, carrying its message. -/
structure ShaderException where
  msg : String
  deriving DecidableEq, Repr

/-- One entry of a program's `_uniforms` dict, as built by
`_introspect_uniforms`: the uniform's location and the value its bound
`getter` currently produces (the driver-side uniform value). -/
structure Uniform where
  location : Nat
  getterValue : Int
  deriving DecidableEq, Repr

/-- The state of a `Program` object the claims touch: its OpenGL id
`_glo` and the `_uniforms` mapping from introspected uniform names to
`Uniform` objects (an association list with the dict's lookup
semantics). -/
structure Program where
  _glo : Nat
  _uniforms : List (String × Uniform)
  deriving DecidableEq, Repr

/-- The driver queries `compile_shader` and `link` depend on: the id
`glCreateShader` returns, the `GL_COMPILE_STATUS` reported per shader id,
the `GL_LINK_STATUS` reported per program id, and the two info logs. -/
structure GLDriver where
  glCreateShader : Nat → Nat
  compileStatus : Nat → Nat
  shaderInfoLog : Nat → String
  linkStatus : Nat → Nat
  programInfoLog : Nat → String

namespace Program

/-- `self._uniforms[key]` as an `Option`: the dict lookup. -/
def findUniform (p : Program) (name : String) : Option Uniform :=
  (p._uniforms.find? fun entry => entry.1 = name).map Prod.snd

/-- `Program.__getitem__(item)`: return `self._uniforms[item].getter()`,
or raise `ShaderException` on a `KeyError`. -/
def getitem (p : Program) (item : String) : Except ShaderException Int :=
  match p.findUniform item with
  | none =>
    Except.error ⟨"Uniform with the name `" ++ item ++ "` was not found."⟩
  | some uniform => Except.ok uniform.getterValue

/-- `Program.use()`: if `self._ctx.active_program != self`, issue
`gl.glUseProgram(self._glo)` and record this program as active; otherwise
do nothing. -/
def use (p : Program) (ctx : Ctx) : Ctx × List GLCall :=
  if ctx.active_program ≠ some p._glo then
    ({ ctx with active_program := some p._glo }, [GLCall.glUseProgram p._glo])
  else
    (ctx, [])

/-- `Program.__setitem__(key, value)`: first, if
`self._ctx.active_program != self`, call `self.use()`; then look `key` up
in `self._uniforms`, raising `ShaderException` on a `KeyError`, and
otherwise invoke `uniform.setter(value)`. Returns the context state at
return/raise time, the driver calls issued, and the outcome. -/
def setitem (p : Program) (ctx : Ctx) (key : String) (value : Int) :
    Ctx × List GLCall × Except ShaderException Unit :=
  let used := if ctx.active_program ≠ some p._glo then p.use ctx else (ctx, [])
  match p.findUniform key with
  | none =>
    (used.1, used.2,
      Except.error ⟨"Uniform with the name `" ++ key ++ "` was not found."⟩)
  | some uniform =>
    (used.1, used.2 ++ [GLCall.glUniformSet uniform.location value], Except.ok ())

/-- `Program.compile_shader(source, shader_type)`: create a shader, feed
it the source, compile, and query `GL_COMPILE_STATUS`; raise
`ShaderException` (message built from the info log; the numbered source
listing of the Python message is abbreviated here) when the status equals
`GL_FALSE`, and return the created shader id otherwise. -/
def compile_shader (d : GLDriver) (source : String) (shader_type : Nat) :
    Except ShaderException Nat :=
  let shader := d.glCreateShader shader_type
  let result := d.compileStatus shader
  if result = GL_FALSE then
    Except.error
      ⟨"Error compiling shader type " ++ toString shader_type ++ " (" ++
        toString result ++ "): " ++ d.shaderInfoLog shader ++ "\n" ++ source⟩
  else
    Except.ok shader

/-- `Program.link(glo)`: `glLinkProgram`, then query `GL_LINK_STATUS`;
raise `ShaderException` when the status is falsy (zero, i.e. a false
`GL_LINK_STATUS`), and return normally otherwise. -/
def link (d : GLDriver) (glo : Nat) : Except ShaderException Unit :=
  let status := d.linkStatus glo
  if status = 0 then
    Except.error ⟨"Program link error: " ++ d.programInfoLog glo⟩
  else
    Except.ok ()

end Program

end Arcade
namespace Arcade

/-- A freshly initialised context (the state `Context.__init__` leaves). -/
def c0 : Ctx := (Context.init none).1

/-- A concrete program: id 7, one introspected uniform `color` at
location 3 whose getter currently produces 11. -/
def p0 : Program :=
  { _glo := 7
    _uniforms := [("color", { location := 3, getterValue := 11 })] }

/-- A driver oracle that reports success everywhere and returns shader
id 42 from `glCreateShader`. -/
def dOK : GLDriver :=
  { glCreateShader := fun _ => 42
    compileStatus := fun _ => 1
    shaderInfoLog := fun _ => ""
    linkStatus := fun _ => 1
    programInfoLog := fun _ => "" }

/-- The driver call `Context.enable_only` issues for one of the four flags
it handles: `glEnable` when the flag is among the arguments, `glDisable`
otherwise. -/
def enableOnlyCall (args : List Nat) (flag : Nat) : GLCall :=
  if flag ∈ args then GLCall.glEnable flag else GLCall.glDisable flag

/-- C1 (counterexample): `enable_only` with `GL_SCISSOR_TEST` (0x0C11), a
flag outside the four the method handles, records the flag — `is_enabled`
becomes true — but issues NO `glEnable(0x0C11)` driver call, refuting the
claimed per-flag pass-through. -/
theorem C1_counterexample :
    (0x0C11 ∈ [0x0C11] ∧
      Context.is_enabled
        (Context.enable_only (Context.init none).1 [0x0C11]).1 0x0C11 = true) ∧
    GLCall.glEnable 0x0C11 ∉ (Context.enable_only (Context.init none).1 [0x0C11]).2 := by
  decide

/-- C1 (amended): after `enable_only(F)`, `is_enabled(f)` is true exactly
for `f` in `F`; driver calls are issued only for the four flags the method
handles — `BLEND`, `DEPTH_TEST`, `CULL_FACE`, `PROGRAM_POINT_SIZE` — each
receiving `glEnable` when it is in `F` and `glDisable` otherwise; flags of
`F` outside these four are recorded but receive no driver call. -/
theorem C1_enable_only (s : Ctx) (args : List Nat) (f : Nat) :
    (Context.is_enabled (Context.enable_only s args).1 f = true ↔ f ∈ args) ∧
    (Context.enable_only s args).2 =
      [enableOnlyCall args Context.BLEND,
        enableOnlyCall args Context.DEPTH_TEST,
        enableOnlyCall args Context.CULL_FACE,
        enableOnlyCall args Context.PROGRAM_POINT_SIZE] := by
  constructor
  · simp [Context.is_enabled, Context.enable_only, List.mem_toFinset]
  · simp [Context.enable_only, enableOnlyCall, List.mem_toFinset]

/-- C2 (code bug, evaluated at the failing input): on a fresh context
(stored point size 1.0), assigning `point_size = 2.0` issues
`glPointSize(1.0)` — the PREVIOUS stored value, not the newly assigned
2.0 — while the subsequent property read does return 2.0. -/
theorem C2_point_size_stale_driver_call :
    (Context.set_point_size (Context.init none).1 2).2 = [GLCall.glPointSize 1] ∧
    Context.point_size (Context.set_point_size (Context.init none).1 2).1 = 2 :=
  ⟨rfl, rfl⟩

/-- C3: after `enable(fs)`, a flag is enabled iff it is in `fs` or was
already enabled (so flags outside `fs` are unchanged), and one `glEnable`
is issued per element of `fs` in order; after `disable(fs)`, a flag is
enabled iff it was enabled and is not in `fs`, and one `glDisable` is
issued per element of `fs` in order. -/
theorem C3_enable_disable (s : Ctx) (fs : List Nat) (f : Nat) :
    (Context.is_enabled (Context.enable s fs).1 f = true ↔
      f ∈ fs ∨ Context.is_enabled s f = true) ∧
    (Context.enable s fs).2 = fs.map GLCall.glEnable ∧
    (Context.is_enabled (Context.disable s fs).1 f = true ↔
      Context.is_enabled s f = true ∧ f ∉ fs) ∧
    (Context.disable s fs).2 = fs.map GLCall.glDisable := by
  refine ⟨?_, rfl, ?_, rfl⟩ <;>
    simp [Context.is_enabled, Context.enable, Context.disable, or_comm]

/-- C4: `incr(k)` adds 1 to the created component of counter `k` keeping
its freed component, `decr(k)` adds 1 to the freed component keeping the
created one, and both leave every other resource counter and
`warn_threshold` unchanged. -/
theorem C4_stats_incr_decr (s : ContextStats) (k k' : StatKey) :
    ((s.incr k).get k' =
      if k' = k then ((s.get k).1 + 1, (s.get k).2) else s.get k') ∧
    (s.incr k).warn_threshold = s.warn_threshold ∧
    ((s.decr k).get k' =
      if k' = k then ((s.get k).1, (s.get k).2 + 1) else s.get k') ∧
    (s.decr k).warn_threshold = s.warn_threshold := by
  cases k <;> cases k' <;>
    simp [ContextStats.incr, ContextStats.decr, ContextStats.get, ContextStats.set]

/-- C5: `p[s]` returns the uniform's getter value when `s` names an
introspected uniform and raises `ShaderException` otherwise; `p[s] = v`
raises `ShaderException` exactly when `s` is not an introspected uniform,
and otherwise succeeds and invokes that uniform's setter with `v`. -/
theorem C5_uniform_get_set (p : Program) (ctx : Ctx) (key : String) (v : Int) :
    (p.findUniform key = none → ∃ e, p.getitem key = Except.error e) ∧
    (∀ u, p.findUniform key = some u → p.getitem key = Except.ok u.getterValue) ∧
    (p.findUniform key = none → ∃ e, (p.setitem ctx key v).2.2 = Except.error e) ∧
    (∀ u, p.findUniform key = some u →
      (p.setitem ctx key v).2.2 = Except.ok () ∧
      GLCall.glUniformSet u.location v ∈ (p.setitem ctx key v).2.1) := by
  refine ⟨fun h => ?_, fun u h => ?_, fun h => ?_, fun u h => ?_⟩ <;>
    simp [Program.getitem, Program.setitem, h]

/-- C5 witness: on the concrete program `p0`, reading the introspected
uniform `color` yields its getter value 11 and reading a missing name
raises. -/
theorem C5_witness :
    p0.getitem "color" = Except.ok 11 ∧
    ∃ e, p0.getitem "missing" = Except.error e :=
  ⟨(C5_uniform_get_set p0 c0 "color" 0).2.1 ⟨3, 11⟩ (by decide),
    (C5_uniform_get_set p0 c0 "missing" 0).1 (by decide)⟩

/-- C6: `compile_shader` raises `ShaderException` iff the driver reports
`GL_COMPILE_STATUS = GL_FALSE` for the created shader, and otherwise
returns the driver-created shader id; `link` raises `ShaderException` iff
the driver reports a false (zero) `GL_LINK_STATUS`. -/
theorem C6_compile_link (d : GLDriver) (source : String) (shader_type glo : Nat) :
    ((∃ e, Program.compile_shader d source shader_type = Except.error e) ↔
      d.compileStatus (d.glCreateShader shader_type) = GL_FALSE) ∧
    (d.compileStatus (d.glCreateShader shader_type) ≠ GL_FALSE →
      Program.compile_shader d source shader_type =
        Except.ok (d.glCreateShader shader_type)) ∧
    ((∃ e, Program.link d glo = Except.error e) ↔ d.linkStatus glo = 0) := by
  refine ⟨?_, fun h => ?_, ?_⟩
  · by_cases h : d.compileStatus (d.glCreateShader shader_type) = GL_FALSE <;>
      simp [Program.compile_shader, h]
  · simp [Program.compile_shader, h]
  · by_cases h : d.linkStatus glo = 0 <;> simp [Program.link, h, GL_FALSE]

/-- C6 witness: with the all-success driver `dOK`, compiling a vertex
shader returns the driver-created id 42. -/
theorem C6_witness :
    Program.compile_shader dOK "src" 0x8B31 = Except.ok 42 :=
  (C6_compile_link dOK "src" 0x8B31 5).2.1 (by decide)

/-- C7: assigning `(src, dst)` to `blend_func` issues exactly
`glBlendFunc(src, dst)` and a subsequent read returns `(src, dst)`. -/
theorem C7_blend_func_roundtrip (s : Ctx) (src dst : Nat) :
    (Context.set_blend_func s (src, dst)).2 = [GLCall.glBlendFunc src dst] ∧
    Context.blend_func (Context.set_blend_func s (src, dst)).1 = (src, dst) :=
  ⟨rfl, rfl⟩

/-- C8: `__setitem__` with a name that is not an introspected uniform, on
a program that is not the context's active program, raises — but the
context has already been switched: at raise time `active_program` is that
program, because `use()` runs before the uniform lookup. -/
theorem C8_setitem_side_effect (p : Program) (ctx : Ctx) (key : String) (v : Int)
    (hactive : ctx.active_program ≠ some p._glo)
    (hmiss : p.findUniform key = none) :
    (∃ e, (p.setitem ctx key v).2.2 = Except.error e) ∧
    (p.setitem ctx key v).1.active_program = some p._glo := by
  simp [Program.setitem, Program.use, hactive, hmiss]

/-- C8 witness: writing the missing uniform `missing` on `p0` from a fresh
context (whose active program is `None`) raises, yet leaves `p0` (id 7) as
the active program. -/
theorem C8_witness :
    (∃ e, (p0.setitem c0 "missing" 5).2.2 = Except.error e) ∧
    (p0.setitem c0 "missing" 5).1.active_program = some 7 :=
  C8_setitem_side_effect p0 c0 "missing" 5 (by decide) (by decide)

/-- C9: after `p.use()` the active program is `p`; `glUseProgram` is
issued exactly when `p` was not already active, and a `use()` on an
already-active program changes nothing; in particular a second
consecutive `use()` issues no driver call and changes no state. -/
theorem C9_use (p : Program) (ctx : Ctx) :
    (p.use ctx).1.active_program = some p._glo ∧
    (ctx.active_program ≠ some p._glo →
      (p.use ctx).2 = [GLCall.glUseProgram p._glo]) ∧
    (ctx.active_program = some p._glo → p.use ctx = (ctx, [])) ∧
    p.use (p.use ctx).1 = ((p.use ctx).1, []) := by
  by_cases h : ctx.active_program = some p._glo <;> simp [Program.use, h]

/-- C9 witness: `p0.use()` on a fresh context issues
`glUseProgram(7)`. -/
theorem C9_use_witness :
    (p0.use c0).2 = [GLCall.glUseProgram 7] :=
  (C9_use p0 c0).2.1 (by decide)

/-- C10: immediately after `Context.__init__`, `Context.active` is the new
context, `blend_func` reads `BLEND_DEFAULT = (0x0302, 0x0303)`,
`point_size` reads 1.0, `active_program` is `None`, and no flag is
enabled. -/
theorem C10_init_state (prev : Option Ctx) :
    (Context.init prev).2 = some (Context.init prev).1 ∧
    Context.blend_func (Context.init prev).1 = Context.BLEND_DEFAULT ∧
    Context.BLEND_DEFAULT = (0x0302, 0x0303) ∧
    Context.point_size (Context.init prev).1 = 1 ∧
    (Context.init prev).1.active_program = none ∧
    ∀ f, Context.is_enabled (Context.init prev).1 f = false := by
  refine ⟨rfl, rfl, rfl, rfl, rfl, fun f => ?_⟩
  simp [Context.is_enabled, Context.init]

end Arcade
